import Mathlib

/-!
Shallow embedding of the lets-summarize-api summarization pipeline.

The TypeScript sources embedded here:
  src/src/summarization/summarization.service.ts  (the service pipeline)
  src/src/utils/summarization.util.ts             (url/options/key utilities)
  src/unnamed/part_000                            (utility file with extractVideoId)

External collaborators (transcript fetch, yt-dlp, Whisper, chat completion,
pdf and docx extractors) are oracle parameters.  JavaScript promise semantics
matter in one place: returning a promise from inside a try block without
awaiting it means the catch blocks never observe its rejection; the embedding
of summarizeYouTubeVideo reflects that.
-/

set_option maxRecDepth 8000

namespace LetsSummarize

/-- JS whitespace characters handled by String.prototype.trim (ASCII subset). -/
def isJsSpace (c : Char) : Bool :=
  c == ' ' || c == '\t' || c == '\n' || c == '\r' || c == Char.ofNat 11 || c == Char.ofNat 12

/-- Embedding of JavaScript String.prototype.trim. -/
def jsTrim (s : String) : String :=
  String.mk (((s.data.dropWhile isJsSpace).reverse.dropWhile isJsSpace).reverse)

/-- Embedding of JavaScript String.prototype.toLowerCase on ASCII data. -/
def jsToLower (s : String) : String := String.mk (s.data.map Char.toLower)

/-- The error classes thrown by the service: NestJS BadRequestException,
NestJS UnsupportedMediaTypeException, and plain JavaScript Error. -/
inductive JsError where
  | badRequest : String → JsError
  | unsupportedMediaType : String → JsError
  | error : String → JsError
  deriving DecidableEq, Repr

/-- The message carried by an error value. -/
def JsError.message : JsError → String
  | .badRequest m => m
  | .unsupportedMediaType m => m
  | .error m => m

/-- Whether an error is the domain-level BadRequest class. -/
def JsError.isBadRequest : JsError → Bool
  | .badRequest _ => true
  | _ => false

/-- Modelled from the spec: summary length enum (short, standard, long);
the enum source file is referenced by src but not included under src. -/
inductive SummaryLength where
  | short | standard | long
  deriving DecidableEq, Repr

/-- Modelled from the spec: summary format enum (narrative, bullet). -/
inductive SummaryFormat where
  | narrative | bullet
  deriving DecidableEq, Repr

/-- summarization.util.ts: the DTO with every option field optional. -/
structure SummarizationOptionsDto where
  length : Option SummaryLength
  format : Option SummaryFormat
  listen : Option Bool
  deriving DecidableEq, Repr

/-- summarization.util.ts: fully resolved options. -/
structure SummarizationOptions where
  length : SummaryLength
  format : SummaryFormat
  listen : Bool
  deriving DecidableEq, Repr

/-- src/src/utils/summarization.util.ts lines 14-22: getSummarizationOptions;
options?.field ?? default for each field. -/
def getSummarizationOptions (options : Option SummarizationOptionsDto) : SummarizationOptions where
  length := (options.bind (fun o => o.length)).getD SummaryLength.standard
  format := (options.bind (fun o => o.format)).getD SummaryFormat.narrative
  listen := (options.bind (fun o => o.listen)).getD false

/-- A resolved options value seen again as a DTO with every field present
(how TypeScript passes a SummarizationOptions where a DTO is expected). -/
def SummarizationOptions.toDto (r : SummarizationOptions) : SummarizationOptionsDto :=
  ⟨some r.length, some r.format, some r.listen⟩

/-- JS truthiness of an optional string: undefined and the empty string are falsy. -/
def truthy : Option String → Bool
  | none => false
  | some s => !(s == "")

/-- src/src/utils/summarization.util.ts lines 24-28: getApiKey;
JS if (key) is a truthiness test on the optional string. -/
def getApiKey (userApiKey defaultApiKey : Option String) : Except JsError String :=
  if truthy userApiKey then .ok (userApiKey.getD "")
  else if truthy defaultApiKey then .ok (defaultApiKey.getD "")
  else .error (.badRequest "API key is required")

/-- Remainders after optionally consuming a literal piece of a regex
(used to enumerate backtracking alternatives). -/
def dropLit (lit : List Char) (l : List Char) : List (List Char) :=
  if l.take lit.length = lit then [l.drop lit.length] else []

/-- JS regex line terminators, which the dot metacharacter does not match. -/
def isLineTerm (c : Char) : Bool :=
  c == '\n' || c == '\r' || c == Char.ofNat 0x2028 || c == Char.ofNat 0x2029

/-- src/src/utils/summarization.util.ts lines 9-12: isValidYouTubeUrl.
Existence of a match of the anchored regex
(https?:\/\/)?(www\.)?(youtube\.com|youtu\.?be)\/.+ at the start of the url;
note youtu\.?be also matches the host spelling "youtube" with no dot. -/
def isValidYouTubeUrl (url : String) : Bool :=
  let l := url.data
  let schemes := [l] ++ dropLit "https://".data l ++ dropLit "http://".data l
  schemes.any (fun r1 =>
    let wwws := [r1] ++ dropLit "www.".data r1
    wwws.any (fun r2 =>
      ["youtube.com", "youtu.be", "youtube"].any (fun h =>
        (dropLit h.data r2).any (fun r3 =>
          match r3 with
          | '/' :: c :: _ => !(isLineTerm c)
          | _ => false))))

/-- Eleven word characters ([\w-]{11}) from the front of the list,
returned together with the remainder. -/
def matchId (l : List Char) : Option (List Char × List Char) :=
  let idc := l.take 11
  if idc.length == 11 && idc.all (fun c => c.isAlphanum || c == '_' || c == '-') then
    some (idc, l.drop 11)
  else none

/-- The post-identifier context: one of the terminator characters or the end. -/
def termOk (terms : List Char) : List Char → Bool
  | [] => true
  | c :: _ => terms.contains c

/-- An identifier at this position followed by an allowed terminator. -/
def idHere (terms : List Char) (l : List Char) : Option String :=
  match matchId l with
  | some (idc, rest) => if termOk terms rest then some (String.mk idc) else none
  | none => none

/-- Leftmost match of the first pattern (?:v=|\/)([\w-]{11})(?:\?|&|\/|$):
at each position the alternatives v= then / are tried, then the scan advances. -/
def scanPat1 : List Char → Option String
  | [] => none
  | c :: rest =>
    (if c == 'v' then
       match rest with
       | '=' :: rest2 => idHere ['?', '&', '/'] rest2
       | _ => none
     else if c == '/' then idHere ['?', '&', '/'] rest
     else none) <|> scanPat1 rest

/-- Leftmost match of the second pattern youtu\.be\/([\w-]{11})(?:\?|&|$). -/
def scanPat2 : List Char → Option String
  | [] => none
  | c :: rest =>
    (if (c :: rest).take 9 = "youtu.be/".data then idHere ['?', '&'] ((c :: rest).drop 9)
     else none) <|> scanPat2 rest

/-- Leftmost match of the third pattern \/shorts\/([\w-]{11})(?:\?|&|$). -/
def scanPat3 : List Char → Option String
  | [] => none
  | c :: rest =>
    (if (c :: rest).take 8 = "/shorts/".data then idHere ['?', '&'] ((c :: rest).drop 8)
     else none) <|> scanPat3 rest

/-- src/unnamed/part_000 lines 34-47: extractVideoId tries the three regexes
in order and returns the capture of the first one that matches. -/
def extractVideoId (url : String) : Option String :=
  (scanPat1 url.data <|> scanPat2 url.data) <|> scanPat3 url.data

/-- An uploaded file as the service sees it (Express.Multer.File: declared
name plus buffered content, the buffer modelled as its decoded text). -/
structure MulterFile where
  originalname : String
  buffer : String
  deriving DecidableEq, Repr

/-- Node path.extname: the extension of the basename; a name whose only dot
is its leading character has no extension. -/
def extname (p : String) : String :=
  let base := (p.data.reverse.takeWhile (fun c => c != '/')).reverse
  let afterRev := base.reverse.takeWhile (fun c => c != '.')
  if afterRev.length + 1 < base.length then String.mk ('.' :: afterRev.reverse) else ""

/-- summarization.service.ts lines 314-334: extractTextFromFile dispatches on
the lowercased extension; the pdf and docx extractors are oracle parameters. -/
def extractTextFromFile (pdfO docxO : MulterFile → String) (file : MulterFile) :
    Except JsError String :=
  let ext := jsToLower (extname file.originalname)
  if ext = ".txt" then .ok file.buffer
  else if ext = ".pdf" then .ok (pdfO file)
  else if ext = ".docx" then .ok (docxO file)
  else .error (.unsupportedMediaType "Unsupported file format. Only PDF, TXT, and DOCX are allowed.")

/-- summarization.service.ts line 38. -/
def MAX_TOKENS : Nat := 15000

/-- summarization.service.ts line 108: Math.floor(MAX_TOKENS / 4). -/
def safeLength : Nat := MAX_TOKENS / 4

/-- JS Array.prototype.join with a single space separator. -/
def joinSpace : List (List Char) → List Char
  | [] => []
  | [w] => w
  | w :: w2 :: ws => w ++ ' ' :: joinSpace (w2 :: ws)

/-- JS String.prototype.split on the single space character. -/
def jsSplitSpace : List Char → List (List Char)
  | [] => [[]]
  | c :: rest =>
    if c == ' ' then [] :: jsSplitSpace rest
    else
      match jsSplitSpace rest with
      | w :: ws => (c :: w) :: ws
      | [] => [[c]]

/-- summarization.service.ts lines 102-105: items mapped through trim and
filtered to the segments of positive length. -/
def cleanedTexts (items : List String) : List String :=
  (items.map jsTrim).filter (fun s => decide (0 < s.length))

/-- summarization.service.ts lines 102-109: join the cleaned segments with
single spaces, split on spaces, keep the first safeLength words, join again. -/
def fetchedTranscriptText (items : List String) : String :=
  let fullTranscript := joinSpace ((cleanedTexts items).map String.data)
  let words := jsSplitSpace fullTranscript
  String.mk (joinSpace (words.take safeLength))

/-- summarization.service.ts lines 99-115: fetchYouTubeTranscript; the external
transcript service is an oracle keyed by video id, and a provider failure is
rethrown as a plain Error with the fixed message text. -/
def fetchYouTubeTranscript (fetch : String → Except String (List String))
    (videoId : String) : Except JsError String :=
  match fetch videoId with
  | .error msg => .error (.error ("Could not fetch transcript from YouTube: " ++ msg))
  | .ok items => .ok (fetchedTranscriptText items)

/-- One message of the chat completion response: content may be absent. -/
structure CompletionMessage where
  content : Option String
  deriving DecidableEq, Repr

/-- One choice of the chat completion response: message may be absent. -/
structure CompletionChoice where
  message : Option CompletionMessage
  deriving DecidableEq, Repr

/-- The chat completion response shape the service reads. -/
structure CompletionResponse where
  choices : List CompletionChoice
  deriving DecidableEq, Repr

/-- summarization.service.ts line 296: choices[0]?.message?.content with
optional chaining at each step. -/
def firstChoiceContent (r : CompletionResponse) : Option String :=
  match r.choices with
  | [] => none
  | c :: _ => c.message.bind (fun m => m.content)

/-- Modelled from the spec: the string value of each summary length member
(the enum source file is not under src; values follow the spec words). -/
def SummaryLength.str : SummaryLength → String
  | .short => "short"
  | .standard => "standard"
  | .long => "long"

/-- Modelled from the spec: the string value of each summary format member. -/
def SummaryFormat.str : SummaryFormat → String
  | .narrative => "narrative"
  | .bullet => "bullet"

/-- summarization.service.ts line 272: the prompt interpolating length and
format into the fixed instruction text around the input text. -/
def buildPrompt (opts : SummarizationOptions) (text : String) : String :=
  "Summarize the following text in a " ++ opts.length.str ++ " format, in " ++
    opts.format.str ++ " style:\n\n" ++ text

/-- summarization.service.ts lines 260-306: summarizeText.  getApiKey runs
before the try block, so its BadRequest error propagates unwrapped; the
options parameter is resolved again through getSummarizationOptions; a
completion failure is wrapped with the fixed message; empty or absent content
falls back to the placeholder through the JS || operator. -/
def summarizeText (completionO : String → Except String CompletionResponse)
    (userApiKey defaultApiKey : Option String) (text : String)
    (options : Option SummarizationOptions) : Except JsError String :=
  match getApiKey userApiKey defaultApiKey with
  | .error e => .error e
  | .ok _ =>
    let resolved := getSummarizationOptions (options.map SummarizationOptions.toDto)
    match completionO (buildPrompt resolved text) with
    | .error msg => .error (.error ("Failed to summarize text: " ++ msg))
    | .ok resp =>
      .ok (match firstChoiceContent resp with
           | some s => if s = "" then "Could not generate a summary." else s
           | none => "Could not generate a summary.")

/-- summarization.service.ts line 36 (names relative to the working directory). -/
def DOWNLOAD_DIR : String := "downloads"

/-- summarization.service.ts line 37. -/
def AUDIO_FORMAT : String := "mp3"

/-- path.join for the two-segment paths the service builds. -/
def joinPath (a b : String) : String := a ++ "/" ++ b

/-- The download directory contents, as file names inside DOWNLOAD_DIR. -/
abbrev DownloadDir := List String

/-- Whether a file name starts with the given generated name piece. -/
def startsWithName (pfx n : String) : Bool := n.data.take pfx.data.length == pfx.data

/-- Modelled from the spec: extractPrefixFromPath (imported by the service but
its source is not under src) recovers the generated name piece from the audio
path: the basename with its extension removed. -/
def extractPrefixFromPath (p : String) : String :=
  String.mk (((p.data.reverse.takeWhile (fun c => c != '/')).reverse).takeWhile
    (fun c => c != '.'))

/-- Modelled from the spec: cleanupFiles (imported by the service but its
source is not under src) deletes every file in the download directory whose
name starts with the generated piece; the directory argument of the source is
implicit in the DownloadDir model. -/
def cleanupFiles (fs : DownloadDir) (pfx : String) : DownloadDir :=
  fs.filter (fun n => !(startsWithName pfx n))

/-- The external effects one pipeline run can observe: the transcript service
keyed by video id, the yt-dlp invocation (the files it writes and whether its
promise resolves), the Whisper transcription, and the completion keyed by
prompt. -/
structure Oracles where
  transcriptFetch : String → Except String (List String)
  ytdlpFiles : List String
  ytdlpResolves : Bool
  transcription : Except String String
  completion : String → Except String CompletionResponse

/-- summarization.service.ts lines 172-207: downloadAudio.  The random suffix
is a parameter; the yt-dlp call may write files whether or not it resolves;
both a rejected call and a missing output file are rethrown from the catch
block as the same fixed message. -/
def downloadAudio (o : Oracles) (pfx : String) (fs : DownloadDir) :
    Except JsError String × DownloadDir :=
  let audioName := pfx ++ "." ++ AUDIO_FORMAT
  let audioPath := joinPath DOWNLOAD_DIR audioName
  let fs2 := fs ++ o.ytdlpFiles
  if o.ytdlpResolves && fs2.contains audioName then (.ok audioPath, fs2)
  else (.error (.error "Failed to download audio"), fs2)

/-- summarization.service.ts lines 215-251: transcribeAudio.  getApiKey runs
before the try block so its BadRequest error propagates unwrapped; a service
failure is rethrown wrapped with the fixed message text. -/
def transcribeAudio (o : Oracles) (userApiKey defaultApiKey : Option String)
    (audioPath : String) : Except JsError String :=
  match getApiKey userApiKey defaultApiKey with
  | .error e => .error e
  | .ok _ =>
    match o.transcription with
    | .error msg => .error (.error ("Failed to transcribe audio: " ++ msg))
    | .ok text => .ok text

/-- The value summarizeYouTubeVideo resolves with. -/
structure VideoResult where
  transcript : String
  summary : String
  deriving DecidableEq, Repr

/-- summarization.service.ts lines 117-138: summarizeYouTubeVideoUsingAudio.
cleanupFiles runs only after download, transcription and summarization all
succeeded; the catch block wraps any error message and performs no cleanup,
so files written before a failure stay in the download directory. -/
def summarizeYouTubeVideoUsingAudio (o : Oracles) (userApiKey defaultApiKey : Option String)
    (options : SummarizationOptions) (pfx : String) (fs : DownloadDir) :
    Except JsError VideoResult × DownloadDir :=
  match downloadAudio o pfx fs with
  | (.error e, fs2) =>
    (.error (.error ("Failed to summarize video using audio: " ++ e.message)), fs2)
  | (.ok audioPath, fs2) =>
    match transcribeAudio o userApiKey defaultApiKey audioPath with
    | .error e =>
      (.error (.error ("Failed to summarize video using audio: " ++ e.message)), fs2)
    | .ok transcript =>
      match summarizeText o.completion userApiKey defaultApiKey transcript (some options) with
      | .error e =>
        (.error (.error ("Failed to summarize video using audio: " ++ e.message)), fs2)
      | .ok summary =>
        ((.ok ⟨transcript, summary⟩), cleanupFiles fs2 (extractPrefixFromPath audioPath))

/-- summarization.service.ts lines 54-97: summarizeYouTubeVideo.  The audio
branch is returned from inside the try blocks without await, so its rejection
bypasses both catch blocks and reaches the caller unchanged; every await
failure inside the inner try is caught there and routed to the audio branch,
so the outer catch that would wrap a message into BadRequestException never
observes a pipeline failure. -/
def summarizeYouTubeVideo (o : Oracles) (videoUrl : String)
    (optionsDto : Option SummarizationOptionsDto) (userApiKey defaultApiKey : Option String)
    (pfx : String) (fs : DownloadDir) : Except JsError VideoResult × DownloadDir :=
  if !isValidYouTubeUrl videoUrl then (.error (.badRequest "Invalid YouTube URL"), fs)
  else
    let options := getSummarizationOptions optionsDto
    match extractVideoId videoUrl with
    | none => summarizeYouTubeVideoUsingAudio o userApiKey defaultApiKey options pfx fs
    | some vid =>
      match fetchYouTubeTranscript o.transcriptFetch vid with
      | .error _ => summarizeYouTubeVideoUsingAudio o userApiKey defaultApiKey options pfx fs
      | .ok transcript =>
        match summarizeText o.completion userApiKey defaultApiKey transcript (some options) with
        | .error _ => summarizeYouTubeVideoUsingAudio o userApiKey defaultApiKey options pfx fs
        | .ok summary => (.ok ⟨transcript, summary⟩, fs)

/-- summarization.service.ts lines 147-164: summarizeFile.  Extraction errors
propagate unwrapped; text that trims to empty raises BadRequest before any
summarization call; otherwise the untrimmed text is summarized. -/
def summarizeFile (pdfO docxO : MulterFile → String)
    (completionO : String → Except String CompletionResponse) (file : MulterFile)
    (optionsDto : Option SummarizationOptionsDto) (userApiKey defaultApiKey : Option String) :
    Except JsError String :=
  let options := getSummarizationOptions optionsDto
  match extractTextFromFile pdfO docxO file with
  | .error e => .error e
  | .ok text =>
    if jsTrim text = "" then .error (.badRequest "Could not extract text from the file.")
    else summarizeText completionO userApiKey defaultApiKey text (some options)

/-! Helper lemmas shared by the claim theorems. -/

theorem takeWhile_app_of_all (p : Char → Bool) (l1 l2 : List Char)
    (h : ∀ c ∈ l1, p c = true) :
    (l1 ++ l2).takeWhile p = l1 ++ l2.takeWhile p := by
  induction l1 with
  | nil => rfl
  | cons c cs ih =>
    simp only [List.cons_append, List.takeWhile_cons, h c (List.mem_cons_self c cs),
      if_true]
    rw [ih (fun x hx => h x (List.mem_cons_of_mem c hx))]

theorem jsSplitSpace_word (w : List Char) (h : ' ' ∉ w) : jsSplitSpace w = [w] := by
  induction w with
  | nil => rfl
  | cons c cs ih =>
    have hc : (c == ' ') = false := by
      refine beq_eq_false_iff_ne.mpr ?_
      intro e
      exact h (by simp [e])
    have hcs : ' ' ∉ cs := fun m => h (List.mem_cons_of_mem c m)
    simp [jsSplitSpace, hc, ih hcs]

theorem jsSplitSpace_append (w t : List Char) (h : ' ' ∉ w) :
    jsSplitSpace (w ++ ' ' :: t) = w :: jsSplitSpace t := by
  induction w with
  | nil => simp [jsSplitSpace]
  | cons c cs ih =>
    have hc : (c == ' ') = false := by
      refine beq_eq_false_iff_ne.mpr ?_
      intro e
      exact h (by simp [e])
    have hcs : ' ' ∉ cs := fun m => h (List.mem_cons_of_mem c m)
    simp [jsSplitSpace, hc, ih hcs]

theorem joinSpace_cons (w : List Char) (ws : List (List Char)) (h : ws ≠ []) :
    joinSpace (w :: ws) = w ++ ' ' :: joinSpace ws := by
  cases ws with
  | nil => exact absurd rfl h
  | cons w2 ws2 => rfl

theorem jsSplitSpace_joinSpace (ws : List (List Char)) (hne : ws ≠ [])
    (h : ∀ w ∈ ws, ' ' ∉ w) : jsSplitSpace (joinSpace ws) = ws := by
  induction ws with
  | nil => exact absurd rfl hne
  | cons w ws2 ih =>
    cases ws2 with
    | nil => simpa [joinSpace] using jsSplitSpace_word w (h w (by simp))
    | cons w2 ws3 =>
      rw [joinSpace_cons w _ (by simp)]
      rw [jsSplitSpace_append w _ (h w (by simp))]
      rw [ih (by simp) (fun x hx => h x (List.mem_cons_of_mem w hx))]

theorem joinSpace_take_front (ws : List (List Char)) (k : Nat) :
    joinSpace (ws.take k) <+: joinSpace ws := by
  induction ws generalizing k with
  | nil => exact ⟨[], by simp⟩
  | cons w ws2 ih =>
    cases k with
    | zero => exact ⟨joinSpace (w :: ws2), rfl⟩
    | succ k2 =>
      cases ws2 with
      | nil => exact ⟨[], by simp⟩
      | cons w2 ws3 =>
        cases k2 with
        | zero => exact ⟨' ' :: joinSpace (w2 :: ws3), rfl⟩
        | succ k3 =>
          obtain ⟨rest, hrest⟩ := ih (k3 + 1)
          refine ⟨rest, ?_⟩
          rw [List.take_succ_cons, joinSpace_cons w _ (by simp),
            joinSpace_cons w (w2 :: ws3) (by simp)]
          simp only [List.append_assoc, List.cons_append]
          rw [hrest]

theorem filter_replicate_pos (n : Nat) (s : String) (p : String → Bool)
    (hp : p s = true) : (List.replicate n s).filter p = List.replicate n s := by
  induction n with
  | zero => rfl
  | succ m ih => simp [List.replicate_succ, List.filter_cons, hp, ih]

/-! Claim theorems. -/

/-- Claim C4, counterexample: for the URL
https://youtu.be/abcdefghijk?v=ABCDEFGHIJK, which matches both the short-link
path family and the canonical v= query family, extractVideoId returns the path
identifier abcdefghijk, not the canonical v= identifier ABCDEFGHIJK, refuting
the claim that the canonical extraction wins on multi-family URLs. -/
theorem c4_counterexample :
    extractVideoId "https://youtu.be/abcdefghijk?v=ABCDEFGHIJK" = some "abcdefghijk" ∧
    ¬ extractVideoId "https://youtu.be/abcdefghijk?v=ABCDEFGHIJK" = some "ABCDEFGHIJK" := by
  exact ⟨by decide, by decide⟩

/-- Claim C4, amended: extractVideoId tries its three patterns in order and
returns the capture of the first pattern that matches anywhere; the first
pattern captures eleven word characters following either v= or any slash, at
the leftmost matching position, so a URL that contains both a path identifier
and a later v= identifier yields the leftmost (path) identifier, while each
single-family URL shape yields its own identifier. -/
theorem c4_pattern_order (url : String) (s : String) :
    (scanPat1 url.data = some s → extractVideoId url = some s) ∧
    (scanPat1 url.data = none → scanPat2 url.data = some s → extractVideoId url = some s) ∧
    (scanPat1 url.data = none → scanPat2 url.data = none →
      extractVideoId url = scanPat3 url.data) ∧
    extractVideoId "https://www.youtube.com/watch?v=dQw4w9WgXcQ" = some "dQw4w9WgXcQ" ∧
    extractVideoId "https://youtu.be/dQw4w9WgXcQ" = some "dQw4w9WgXcQ" ∧
    extractVideoId "https://youtube.com/shorts/dQw4w9WgXcQ" = some "dQw4w9WgXcQ" ∧
    extractVideoId "https://youtu.be/abcdefghijk?v=ABCDEFGHIJK" = some "abcdefghijk" ∧
    extractVideoId "not a url" = none := by
  refine ⟨?_, ?_, ?_, by decide, by decide, by decide, by decide, by decide⟩
  · intro h
    simp [extractVideoId, h]
  · intro h1 h2
    simp [extractVideoId, h1, h2]
  · intro h1 h2
    simp [extractVideoId, h1, h2]

/-- Claim C4, witness for the amended theorem at a concrete input: pattern one
matches the combined URL and extractVideoId returns exactly its capture. -/
theorem c4_pattern_order_witness :
    scanPat1 "https://youtu.be/abcdefghijk?v=ABCDEFGHIJK".data = some "abcdefghijk" ∧
    extractVideoId "https://youtu.be/abcdefghijk?v=ABCDEFGHIJK" = some "abcdefghijk" :=
  ⟨by decide,
   (c4_pattern_order "https://youtu.be/abcdefghijk?v=ABCDEFGHIJK" "abcdefghijk").1 (by decide)⟩

/-- Claim C6: getApiKey returns the user key when it is a non-empty string,
else the default key when that is non-empty, and otherwise (exactly then)
fails with the BadRequest error carrying the missing-credential message. -/
theorem c6_api_key_resolution (u d : Option String) :
    (∀ s, u = some s → s ≠ "" → getApiKey u d = .ok s) ∧
    (∀ t, truthy u = false → d = some t → t ≠ "" → getApiKey u d = .ok t) ∧
    ((∃ e, getApiKey u d = .error e) ↔ truthy u = false ∧ truthy d = false) ∧
    (truthy u = false ∧ truthy d = false →
      getApiKey u d = .error (.badRequest "API key is required")) := by
  refine ⟨?_, ?_, ?_, ?_⟩
  · intro s hu hs
    subst hu
    simp [getApiKey, truthy, hs]
  · intro t hu hd ht
    subst hd
    have htt : truthy (some t) = true := by simp [truthy, ht]
    simp [getApiKey, hu, htt]
  · cases hu : truthy u <;> cases hd : truthy d <;> simp [getApiKey, hu, hd]
  · intro ⟨h1, h2⟩
    simp [getApiKey, h1, h2]

/-- Claim C6, witness: the three behaviours at concrete keys. -/
theorem c6_api_key_resolution_witness :
    getApiKey (some "k1") (some "k2") = .ok "k1" ∧
    getApiKey none (some "k2") = .ok "k2" ∧
    getApiKey none none = .error (.badRequest "API key is required") :=
  ⟨(c6_api_key_resolution (some "k1") (some "k2")).1 "k1" rfl (by decide),
   (c6_api_key_resolution none (some "k2")).2.1 "k2" rfl rfl (by decide),
   (c6_api_key_resolution none none).2.2.2 ⟨rfl, rfl⟩⟩

/-- Claim C7: option resolution is a total pure function (the embedding is a
Lean function, so totality and non-mutation are inherent), fills each field
with the user value when present and the fixed default otherwise, and is
idempotent: resolving an already resolved value changes nothing. -/
theorem c7_options_resolution (x : Option SummarizationOptionsDto)
    (l : SummaryLength) (f : SummaryFormat) (li : Bool) :
    getSummarizationOptions (some (SummarizationOptions.toDto (getSummarizationOptions x)))
      = getSummarizationOptions x ∧
    getSummarizationOptions none
      = ⟨SummaryLength.standard, SummaryFormat.narrative, false⟩ ∧
    getSummarizationOptions (some ⟨some l, some f, some li⟩) = ⟨l, f, li⟩ ∧
    getSummarizationOptions (some ⟨none, none, none⟩)
      = ⟨SummaryLength.standard, SummaryFormat.narrative, false⟩ :=
  ⟨rfl, rfl, rfl, rfl⟩

/-- Claim C8: extractTextFromFile lowercases the declared extension before
dispatch, so any file whose extension lowercases to .txt, .pdf or .docx is
routed to the corresponding parser, and concrete uppercase and mixed-case
names are accepted exactly like their lowercase counterparts. -/
theorem c8_extension_case_insensitive (pdfO docxO : MulterFile → String) (f : MulterFile) :
    (jsToLower (extname f.originalname) = ".txt" →
      extractTextFromFile pdfO docxO f = .ok f.buffer) ∧
    (jsToLower (extname f.originalname) = ".pdf" →
      extractTextFromFile pdfO docxO f = .ok (pdfO f)) ∧
    (jsToLower (extname f.originalname) = ".docx" →
      extractTextFromFile pdfO docxO f = .ok (docxO f)) ∧
    extractTextFromFile pdfO docxO ⟨"Report.TXT", f.buffer⟩ = .ok f.buffer ∧
    extractTextFromFile pdfO docxO ⟨"paper.Pdf", f.buffer⟩
      = .ok (pdfO ⟨"paper.Pdf", f.buffer⟩) ∧
    extractTextFromFile pdfO docxO ⟨"notes.DOCX", f.buffer⟩
      = .ok (docxO ⟨"notes.DOCX", f.buffer⟩) ∧
    extractTextFromFile pdfO docxO ⟨"image.PNG", f.buffer⟩
      = .error (.unsupportedMediaType
          "Unsupported file format. Only PDF, TXT, and DOCX are allowed.") := by
  refine ⟨?_, ?_, ?_, rfl, rfl, rfl, rfl⟩
  · intro h
    unfold extractTextFromFile
    rw [h]
    exact rfl
  · intro h
    unfold extractTextFromFile
    rw [h]
    exact rfl
  · intro h
    unfold extractTextFromFile
    rw [h]
    exact rfl

/-- Claim C8, witness: an uppercase .TXT upload is read as plain text. -/
theorem c8_extension_case_insensitive_witness :
    jsToLower (extname "Report.TXT") = ".txt" ∧
    extractTextFromFile (fun _ => "P") (fun _ => "D") ⟨"Report.TXT", "B"⟩ = .ok "B" :=
  ⟨rfl, (c8_extension_case_insensitive (fun _ => "P") (fun _ => "D") ⟨"Report.TXT", "B"⟩).1 rfl⟩

/-- Claim C9: the optional dot in the youtu\.?be alternative lets
isValidYouTubeUrl accept https://youtube/abc, whose host string "youtube" is
none of the four canonical host spellings. -/
theorem c9_loose_host_accepted :
    isValidYouTubeUrl "https://youtube/abc" = true ∧
    "youtube" ≠ "youtube.com" ∧ "youtube" ≠ "www.youtube.com" ∧
    "youtube" ≠ "youtu.be" ∧ "youtube" ≠ "www.youtu.be" := by
  exact ⟨by decide, by decide, by decide, by decide, by decide⟩

/-- Claim C10: when the completion service responds and the first choice
carries empty or absent content, summarizeText returns the fixed placeholder
string, because the check is a JS falsiness test on the content. -/
theorem c10_placeholder_on_empty (completionO : String → Except String CompletionResponse)
    (u d : Option String) (text : String) (options : Option SummarizationOptions)
    (resp : CompletionResponse) (k : String)
    (hkey : getApiKey u d = .ok k)
    (hresp : completionO (buildPrompt
        (getSummarizationOptions (options.map SummarizationOptions.toDto)) text) = .ok resp)
    (hcontent : firstChoiceContent resp = some "" ∨ firstChoiceContent resp = none) :
    summarizeText completionO u d text options = .ok "Could not generate a summary." := by
  unfold summarizeText
  rw [hkey]
  simp only []
  rw [hresp]
  rcases hcontent with h | h <;> simp [h]

/-- Claim C10, witness: a response whose only choice has empty content yields
the placeholder. -/
theorem c10_placeholder_on_empty_witness :
    getApiKey (some "k") none = .ok "k" ∧
    summarizeText (fun _ => Except.ok ⟨[⟨some ⟨some ""⟩⟩]⟩) (some "k") none "t" none
      = .ok "Could not generate a summary." :=
  ⟨rfl, c10_placeholder_on_empty (fun _ => Except.ok ⟨[⟨some ⟨some ""⟩⟩]⟩)
    (some "k") none "t" none ⟨[⟨some ⟨some ""⟩⟩]⟩ "k" rfl rfl (Or.inl rfl)⟩

/-- Claim C1, counterexample: a run of the audio branch whose download created
the file p7.mp3 but whose transcription then failed ends with that file still
in the download directory, refuting the claim that every file with the
generated name piece is deleted regardless of the outcome. -/
theorem c1_counterexample :
    summarizeYouTubeVideoUsingAudio ⟨fun _ => Except.error "x", ["p7.mp3"], true,
        Except.error "network error", fun _ => Except.error "y"⟩
        (some "k") none ⟨.standard, .narrative, false⟩ "p7" []
      = (Except.error (JsError.error
          "Failed to summarize video using audio: Failed to transcribe audio: network error"),
         ["p7.mp3"]) ∧
    startsWithName "p7" "p7.mp3" = true :=
  ⟨rfl, rfl⟩

/-- Claim C1, amended: cleanupFiles deletes every download-directory file whose
name starts with the generated piece, but only on runs where download,
transcription and summarization all succeed; on failure after file creation
the artifact remains (see the counterexample). -/
theorem c1_cleanup_on_success (o : Oracles) (u d : Option String)
    (opts : SummarizationOptions) (pfx : String) (fs : DownloadDir) (t : String)
    (resp : CompletionResponse) (k : String)
    (hpref : extractPrefixFromPath (joinPath DOWNLOAD_DIR (pfx ++ "." ++ AUDIO_FORMAT)) = pfx)
    (hok : o.ytdlpResolves = true)
    (hfile : (fs ++ o.ytdlpFiles).contains (pfx ++ "." ++ AUDIO_FORMAT) = true)
    (hkey : getApiKey u d = .ok k)
    (htr : o.transcription = .ok t)
    (hc : o.completion (buildPrompt opts t) = .ok resp) :
    (∃ r, (summarizeYouTubeVideoUsingAudio o u d opts pfx fs).1 = .ok r) ∧
    ∀ f ∈ (summarizeYouTubeVideoUsingAudio o u d opts pfx fs).2,
      startsWithName pfx f = false := by
  have hdl : downloadAudio o pfx fs
      = (.ok (joinPath DOWNLOAD_DIR (pfx ++ "." ++ AUDIO_FORMAT)), fs ++ o.ytdlpFiles) := by
    simp only [downloadAudio]
    rw [hok, hfile]
    exact rfl
  have hta : transcribeAudio o u d (joinPath DOWNLOAD_DIR (pfx ++ "." ++ AUDIO_FORMAT))
      = .ok t := by
    unfold transcribeAudio
    rw [hkey, htr]
  have hc2 : o.completion (buildPrompt (getSummarizationOptions
      (some (SummarizationOptions.toDto opts))) t) = .ok resp := hc
  have hst : summarizeText o.completion u d t (some opts)
      = .ok (match firstChoiceContent resp with
             | some s => if s = "" then "Could not generate a summary." else s
             | none => "Could not generate a summary.") := by
    unfold summarizeText
    rw [hkey]
    simp [hc2]
  have run_eq : summarizeYouTubeVideoUsingAudio o u d opts pfx fs
      = ((.ok ⟨t, match firstChoiceContent resp with
             | some s => if s = "" then "Could not generate a summary." else s
             | none => "Could not generate a summary."⟩),
         cleanupFiles (fs ++ o.ytdlpFiles) pfx) := by
    unfold summarizeYouTubeVideoUsingAudio
    rw [hdl]
    simp [hta, hst, hpref]
  constructor
  · exact ⟨_, by rw [run_eq]⟩
  · intro f hf
    rw [run_eq] at hf
    simp only [cleanupFiles, List.mem_filter] at hf
    simpa using hf.2

/-- Claim C1, witness for the amended theorem: a fully successful concrete run
deletes the created file, leaving no file with the generated name piece. -/
theorem c1_cleanup_on_success_witness :
    (∃ r, (summarizeYouTubeVideoUsingAudio ⟨fun _ => Except.error "x", ["p7.mp3"], true,
        Except.ok "T", fun _ => Except.ok ⟨[⟨some ⟨some "S"⟩⟩]⟩⟩
        (some "k") none ⟨.standard, .narrative, false⟩ "p7" []).1 = .ok r) ∧
    ∀ f ∈ (summarizeYouTubeVideoUsingAudio ⟨fun _ => Except.error "x", ["p7.mp3"], true,
        Except.ok "T", fun _ => Except.ok ⟨[⟨some ⟨some "S"⟩⟩]⟩⟩
        (some "k") none ⟨.standard, .narrative, false⟩ "p7" []).2,
      startsWithName "p7" f = false :=
  c1_cleanup_on_success _ (some "k") none ⟨.standard, .narrative, false⟩ "p7" [] "T"
    ⟨[⟨some ⟨some "S"⟩⟩]⟩ "k" rfl rfl rfl rfl rfl rfl

/-- Claim C2 (code bug shown on the embedding): with a valid URL whose
transcript fetch fails and whose audio download then also fails, the caller
receives a plain Error — the audio-branch promise is returned without await,
so its rejection bypasses both catch blocks — not the BadRequest-class error
the claim and the documentation comment on summarizeYouTubeVideo promise. -/
theorem c2_raw_error_surfaces :
    (summarizeYouTubeVideo ⟨fun _ => Except.error "no captions", [], false,
        Except.error "e", fun _ => Except.error "e"⟩
        "https://youtu.be/abcdefghijk" none (some "k") none "p7" []).1
      = Except.error (JsError.error
          "Failed to summarize video using audio: Failed to download audio") ∧
    JsError.isBadRequest (JsError.error
        "Failed to summarize video using audio: Failed to download audio") = false :=
  ⟨rfl, rfl⟩

/-- Claim C3, counterexample: a video request whose transcript service returns
an empty item list produces extracted text that is empty after trimming, yet
the request succeeds by invoking summarization on the empty string instead of
failing with an EmptyContent-class error. -/
theorem c3_counterexample :
    summarizeYouTubeVideo ⟨fun _ => Except.ok [], [], true, Except.ok "T",
        fun _ => Except.ok ⟨[⟨some ⟨some "S"⟩⟩]⟩⟩
        "https://youtu.be/abcdefghijk" none (some "k") none "p7" []
      = (Except.ok ⟨"", "S"⟩, []) ∧
    jsTrim "" = "" :=
  ⟨rfl, rfl⟩

/-- Claim C3, amended: only the file-upload path guards emptiness — when the
extracted file text trims to empty, the request fails with the BadRequest
message before any summarization call; otherwise the original untrimmed text
is passed to summarization.  The video path has no such guard. -/
theorem c3_file_empty_check (pdfO docxO : MulterFile → String)
    (completionO : String → Except String CompletionResponse) (file : MulterFile)
    (dto : Option SummarizationOptionsDto) (u d : Option String) (text : String)
    (hx : extractTextFromFile pdfO docxO file = .ok text) :
    (jsTrim text = "" →
      summarizeFile pdfO docxO completionO file dto u d
        = .error (.badRequest "Could not extract text from the file.")) ∧
    (jsTrim text ≠ "" →
      summarizeFile pdfO docxO completionO file dto u d
        = summarizeText completionO u d text (some (getSummarizationOptions dto))) := by
  simp only [summarizeFile]
  rw [hx]
  constructor
  · intro h
    simp [h]
  · intro h
    simp [h]

/-- Claim C3, witness for the amended theorem: a whitespace-only .txt upload
fails with the BadRequest message before summarization. -/
theorem c3_file_empty_check_witness :
    extractTextFromFile (fun _ => "") (fun _ => "") ⟨"a.txt", "   "⟩ = .ok "   " ∧
    summarizeFile (fun _ => "") (fun _ => "") (fun _ => Except.error "e")
        ⟨"a.txt", "   "⟩ none (some "k") none
      = .error (.badRequest "Could not extract text from the file.") :=
  ⟨rfl, (c3_file_empty_check (fun _ => "") (fun _ => "") (fun _ => Except.error "e")
      ⟨"a.txt", "   "⟩ none (some "k") none "   " rfl).1 rfl⟩

/-- Claim C5: fetchYouTubeTranscript joins the cleaned transcript segments with
single spaces and keeps exactly the first safeLength = floor(MAX_TOKENS / 4)
= 3750 space-separated words, a front piece of the full joined transcript,
whenever the cleaned segments are single words and at least safeLength of
them exist. -/
theorem c5_transcript_truncation (items : List String)
    (hw : ∀ t ∈ cleanedTexts items, ' ' ∉ t.data)
    (hn : safeLength ≤ (cleanedTexts items).length) :
    MAX_TOKENS = 15000 ∧ safeLength = 3750 ∧
    (fetchedTranscriptText items).data
      = joinSpace (((cleanedTexts items).map String.data).take safeLength) ∧
    (jsSplitSpace (fetchedTranscriptText items).data).length = safeLength ∧
    ((fetchedTranscriptText items).data <+:
      joinSpace ((cleanedTexts items).map String.data)) ∧
    (∀ fetch vid, fetch vid = Except.ok items →
      fetchYouTubeTranscript fetch vid = Except.ok (fetchedTranscriptText items)) := by
  have hwf : ∀ w ∈ (cleanedTexts items).map String.data, ' ' ∉ w := by
    intro w hwmem
    obtain ⟨s, hs, hsw⟩ := List.mem_map.mp hwmem
    exact hsw ▸ hw s hs
  have hlen : ((cleanedTexts items).map String.data).length = (cleanedTexts items).length :=
    List.length_map _ _
  have hpos : 0 < safeLength := by decide
  have hne : (cleanedTexts items).map String.data ≠ [] := by
    intro e
    have h0 : ((cleanedTexts items).map String.data).length = 0 := by rw [e]; rfl
    rw [hlen] at h0
    omega
  have hsplit : jsSplitSpace (joinSpace ((cleanedTexts items).map String.data))
      = (cleanedTexts items).map String.data :=
    jsSplitSpace_joinSpace _ hne hwf
  have hdata : (fetchedTranscriptText items).data
      = joinSpace (((cleanedTexts items).map String.data).take safeLength) := by
    have hfe : fetchedTranscriptText items = String.mk (joinSpace
        ((jsSplitSpace (joinSpace ((cleanedTexts items).map String.data))).take
          safeLength)) := rfl
    rw [hfe, hsplit]
  have htklen : (((cleanedTexts items).map String.data).take safeLength).length
      = safeLength := by
    rw [List.length_take, hlen]
    omega
  have htake : jsSplitSpace (joinSpace
        (((cleanedTexts items).map String.data).take safeLength))
      = ((cleanedTexts items).map String.data).take safeLength := by
    apply jsSplitSpace_joinSpace
    · intro e
      rw [e] at htklen
      simp at htklen
      omega
    · intro w hwmem
      exact hwf w (List.mem_of_mem_take hwmem)
  refine ⟨rfl, by decide, hdata, ?_, ?_, ?_⟩
  · rw [hdata, htake, htklen]
  · rw [hdata]
    exact joinSpace_take_front _ _
  · intro fetch vid hf
    simp [fetchYouTubeTranscript, hf]

/-- Claim C5, witness: a transcript of 100000 single-word segments satisfies
the hypotheses, and the returned text has exactly 3750 words and sits at the
front of the full joined transcript. -/
theorem c5_transcript_truncation_witness :
    safeLength ≤ (cleanedTexts (List.replicate 100000 "w")).length ∧
    (jsSplitSpace (fetchedTranscriptText (List.replicate 100000 "w")).data).length
      = safeLength ∧
    ((fetchedTranscriptText (List.replicate 100000 "w")).data <+:
      joinSpace ((cleanedTexts (List.replicate 100000 "w")).map String.data)) := by
  have hclean : cleanedTexts (List.replicate 100000 "w") = List.replicate 100000 "w" := by
    unfold cleanedTexts
    rw [List.map_replicate]
    have h1 : jsTrim "w" = "w" := rfl
    rw [h1]
    exact filter_replicate_pos _ _ _ rfl
  have hw : ∀ t ∈ cleanedTexts (List.replicate 100000 "w"), ' ' ∉ t.data := by
    intro t ht
    rw [hclean] at ht
    have he := List.eq_of_mem_replicate ht
    subst he
    decide
  have hn : safeLength ≤ (cleanedTexts (List.replicate 100000 "w")).length := by
    rw [hclean, List.length_replicate]
    decide
  have main := c5_transcript_truncation (List.replicate 100000 "w") hw hn
  exact ⟨hn, main.2.2.2.1, main.2.2.2.2.1⟩

end LetsSummarize
